import Mathlib

/-!
Shallow embedding of the kbridge gateway (why-xn/kbridge) for checking the
natural-language specification against the code.

The embedding follows the Go sources:
  * `internal/central/commands.go`  — the command broker (`CommandQueue`).
  * the agent registry (`AgentStore`) and `internal/central/grpc.go` — the
    agent-facing RPC surface.
  * the HTTP exec handler (`handleExecCommand`) — timeout clamping and
    response assembly.
  * `internal/central/auth_handlers.go` and the SQLite store's refresh-token
    operations — login, refresh rotation, logout.

Modelling conventions: Go maps keyed by a string become association lists
(`List` of records carrying their key); the buffered capacity-1 rendezvous
channel becomes `Option CommandResult` (empty / holding one value); byte
slices become `String`; `time.Time` becomes `Nat`; `time.Duration` becomes
`Int` nanoseconds with explicit signed-64-bit wrap where the Go code
multiplies durations.  Random identifiers (request ids, agent ids, fresh
refresh-token material) are taken as explicit parameters.  Cryptographic
hash functions (SHA-256 of refresh tokens, bcrypt password comparison) are
taken as function parameters: none of the verified control flow depends on
their computational content.
-/

namespace KBridge

/-! ### Command broker (`internal/central/commands.go`) -/

/-- The `CommandStatus` from commands.go. -/
inductive CommandStatus
  | pending
  | running
  | completed
  | failed
  | timeout
deriving DecidableEq, Repr

/-- The `CommandResult` from commands.go (`Stdout`/`Stderr` bytes as `String`). -/
structure CommandResult where
  requestID : String
  stdout : String
  stderr : String
  exitCode : Int
  errorMessage : String
  completed : Bool
deriving DecidableEq, Repr

/-- The `PendingCommand` from commands.go.  The buffered capacity-1 result
channel `resultCh` is modelled as `Option CommandResult`: `none` is an empty
channel, `some r` a channel holding `r` (a further non-blocking send is
dropped, as in the Go `select`/`default`). -/
structure PendingCommand where
  requestID : String
  agentID : String
  clusterName : String
  command : List String
  nspace : String
  timeoutSeconds : Int
  stdin : String
  status : CommandStatus
  resultCh : Option CommandResult
deriving DecidableEq, Repr

/-- The `CommandQueue`: the Go map keyed by request id, as a list of entries
(the Go map has one entry per `requestID`). -/
structure CommandQueue where
  commands : List PendingCommand
deriving DecidableEq, Repr

/-- The `Enqueue`: inserts a fresh entry with status `pending` and an empty
rendezvous channel.  The randomly generated request id is a parameter. -/
def CommandQueue.enqueue (q : CommandQueue) (requestID agentID clusterName : String)
    (command : List String) (nspace : String) (timeoutSeconds : Int) (stdin : String) :
    CommandQueue :=
  { commands := q.commands ++
      [{ requestID := requestID, agentID := agentID, clusterName := clusterName,
         command := command, nspace := nspace, timeoutSeconds := timeoutSeconds,
         stdin := stdin, status := CommandStatus.pending, resultCh := none }] }

/-- The `Get`: map lookup by request id. -/
def CommandQueue.get (q : CommandQueue) (requestID : String) : Option PendingCommand :=
  q.commands.find? (fun c => c.requestID == requestID)

/-- The `GetPendingForAgent`: entries targeting the agent with status `pending`. -/
def CommandQueue.getPendingForAgent (q : CommandQueue) (agentID : String) :
    List PendingCommand :=
  q.commands.filter (fun c => c.agentID == agentID && c.status == CommandStatus.pending)

/-- The `MarkRunning`: unconditionally sets the status of the entry with the
given id to `running`; returns `false` for unknown ids. -/
def CommandQueue.markRunning (q : CommandQueue) (requestID : String) :
    CommandQueue × Bool :=
  match q.get requestID with
  | none => (q, false)
  | some _ =>
      ({ commands := q.commands.map fun c =>
          if c.requestID = requestID then { c with status := CommandStatus.running } else c },
        true)

/-- The `Complete`: sets status `completed`, sets `result.Completed = true`, and
publishes the result to the rendezvous channel non-blockingly (dropped if the
capacity-1 channel is already full). -/
def CommandQueue.complete (q : CommandQueue) (requestID : String) (result : CommandResult) :
    CommandQueue × Bool :=
  match q.get requestID with
  | none => (q, false)
  | some _ =>
      let res := { result with completed := true }
      ({ commands := q.commands.map fun c =>
          if c.requestID = requestID then
            { c with status := CommandStatus.completed,
                     resultCh := match c.resultCh with
                                 | none => some res
                                 | some x => some x }
          else c },
        true)

/-- The failure result constructed by `Fail`. -/
def failResult (requestID errorMessage : String) : CommandResult :=
  { requestID := requestID, stdout := "", stderr := "", exitCode := -1,
    errorMessage := errorMessage, completed := true }

/-- The `Fail`: sets status `failed` and publishes a fresh failure result with
`exitCode = -1` non-blockingly. -/
def CommandQueue.fail (q : CommandQueue) (requestID errorMessage : String) :
    CommandQueue × Bool :=
  match q.get requestID with
  | none => (q, false)
  | some _ =>
      let res := failResult requestID errorMessage
      ({ commands := q.commands.map fun c =>
          if c.requestID = requestID then
            { c with status := CommandStatus.failed,
                     resultCh := match c.resultCh with
                                 | none => some res
                                 | some x => some x }
          else c },
        true)

/-- Outcome of `WaitForResult`. -/
inductive WaitOutcome
  | result (res : CommandResult)
  | ctxErr
  | notFound
  | blocked
deriving DecidableEq, Repr

/-- The `WaitForResult`.  `ctxDone` says whether the caller's context deadline
has fired at the moment the `select` resolves.  A ready channel is received
from (emptying it); otherwise, if the deadline fired, the entry — if still
`pending`/`running` — transitions to `timeout` and the caller sees the
context error; otherwise the call is still blocked. -/
def CommandQueue.waitForResult (q : CommandQueue) (requestID : String) (ctxDone : Bool) :
    WaitOutcome × CommandQueue :=
  match q.get requestID with
  | none => (WaitOutcome.notFound, q)
  | some cmd =>
      match cmd.resultCh with
      | some res =>
          (WaitOutcome.result res,
           { commands := q.commands.map fun c =>
               if c.requestID = requestID then { c with resultCh := none } else c })
      | none =>
          if ctxDone then
            (WaitOutcome.ctxErr,
             { commands := q.commands.map fun c =>
                 if c.requestID == requestID &&
                    (c.status == CommandStatus.pending || c.status == CommandStatus.running)
                 then { c with status := CommandStatus.timeout } else c })
          else (WaitOutcome.blocked, q)

/-- The `Remove`: deletes the entry. -/
def CommandQueue.remove (q : CommandQueue) (requestID : String) : CommandQueue :=
  { commands := q.commands.filter (fun c => !(c.requestID == requestID)) }

/-! ### Agent registry (`AgentStore`) -/

/-- The `AgentInfo`: a registered agent and its state (times as `Nat`). -/
structure AgentInfo where
  id : String
  clusterName : String
  token : String
  status : String
  kubernetesVersion : String
  nodeCount : Int
  region : String
  provider : String
  registeredAt : Nat
  lastSeen : Nat
deriving DecidableEq, Repr

def AgentStatusConnected : String := "connected"

def AgentStatusDisconnected : String := "disconnected"

/-- The `AgentStore`: the Go maps `agents` (keyed by agent id) and
`validTokens` as lists. -/
structure AgentStore where
  agents : List AgentInfo
  validTokens : List String
deriving DecidableEq, Repr

/-- The `NewAgentStore`. -/
def AgentStore.empty : AgentStore := { agents := [], validTokens := [] }

/-- The `AddValidToken`. -/
def AgentStore.addValidToken (s : AgentStore) (token : String) : AgentStore :=
  { s with validTokens := s.validTokens ++ [token] }

/-- The `ValidateToken`. -/
def AgentStore.validateToken (s : AgentStore) (token : String) : Bool :=
  s.validTokens.contains token

/-- The `Register`: stamps attach/heartbeat times and `connected`, then performs
`s.agents[info.ID] = info` — insert or overwrite keyed by the agent id. -/
def AgentStore.register (s : AgentStore) (info : AgentInfo) (now : Nat) : AgentStore :=
  let info' := { info with registeredAt := now, lastSeen := now,
                           status := AgentStatusConnected }
  if s.agents.any (fun a => a.id == info.id) then
    { s with agents := s.agents.map fun a => if a.id = info.id then info' else a }
  else
    { s with agents := s.agents ++ [info'] }

/-- The `UpdateHeartbeat`. -/
def AgentStore.updateHeartbeat (s : AgentStore) (agentID status : String) (now : Nat) :
    AgentStore × Bool :=
  if s.agents.any (fun a => a.id == agentID) then
    ({ s with agents := s.agents.map fun a =>
        if a.id = agentID then { a with lastSeen := now, status := status } else a },
      true)
  else (s, false)

/-- The `Get`: lookup by agent id (the Go code returns a copy; the model is
value-based, so the copy is implicit). -/
def AgentStore.get (s : AgentStore) (agentID : String) : Option AgentInfo :=
  s.agents.find? (fun a => a.id == agentID)

/-- The `GetByClusterName`: first entry (in map order) with the cluster name. -/
def AgentStore.getByClusterName (s : AgentStore) (clusterName : String) : Option AgentInfo :=
  s.agents.find? (fun a => a.clusterName == clusterName)

/-- The `MarkDisconnected` (`DisconnectTimeout` is 60 s): demotes connected
agents whose `lastSeen` is before `now - 60`. -/
def AgentStore.markDisconnected (s : AgentStore) (now : Nat) : AgentStore :=
  { s with agents := s.agents.map fun a =>
      if a.status == AgentStatusConnected && a.lastSeen + 60 < now
      then { a with status := AgentStatusDisconnected } else a }

/-! ### Agent-facing RPC surface (`internal/central/grpc.go`) -/

/-- gRPC canonical status codes used by the handlers. -/
inductive GrpcCode
  | invalidArgument
  | notFound
  | unimplemented
  | internal
deriving DecidableEq, Repr

/-- The `AgentMetadata` from the register request. -/
structure AgentMetadata where
  kubernetesVersion : String
  nodeCount : Int
  region : String
  provider : String
deriving DecidableEq, Repr

/-- The `RegisterRequest`. -/
structure RegisterRequest where
  clusterName : String
  agentToken : String
  metadata : Option AgentMetadata
deriving DecidableEq, Repr

/-- The `RegisterResponse`. -/
structure RegisterResponse where
  success : Bool
  agentId : String
  errorMessage : String
deriving DecidableEq, Repr

/-- The `GRPCServer.Register`: validates the cluster name and the agent token,
builds an `AgentInfo` with a freshly generated agent id (parameter
`freshID`) and registers it in the store. -/
def grpcRegister (s : AgentStore) (req : RegisterRequest) (freshID : String) (now : Nat) :
    RegisterResponse × AgentStore :=
  if req.clusterName = "" then
    ({ success := false, agentId := "", errorMessage := "cluster_name is required" }, s)
  else if !(s.validateToken req.agentToken) then
    ({ success := false, agentId := "", errorMessage := "invalid agent token" }, s)
  else
    let info : AgentInfo :=
      { id := freshID, clusterName := req.clusterName, token := req.agentToken,
        status := "",
        kubernetesVersion := ((req.metadata.map (fun m => m.kubernetesVersion)).getD ""),
        nodeCount := ((req.metadata.map (fun m => m.nodeCount)).getD 0),
        region := ((req.metadata.map (fun m => m.region)).getD ""),
        provider := ((req.metadata.map (fun m => m.provider)).getD ""),
        registeredAt := 0, lastSeen := 0 }
    ({ success := true, agentId := freshID, errorMessage := "" }, s.register info now)

/-- The `CommandRequest` returned to the agent by `GetPendingCommands`. -/
structure CommandRequest where
  requestId : String
  agentId : String
  command : List String
  nspace : String
  timeoutSeconds : Int
  stdin : String
deriving DecidableEq, Repr

/-- The per-entry conversion in the `GetPendingCommands` loop. -/
def toCommandRequest (c : PendingCommand) : CommandRequest :=
  { requestId := c.requestID, agentId := c.agentID, command := c.command,
    nspace := c.nspace, timeoutSeconds := c.timeoutSeconds, stdin := c.stdin }

/-- The `GRPCServer.GetPendingCommands`: empty agent id is INVALID_ARGUMENT;
unregistered agent is NOT_FOUND; otherwise the pending snapshot is taken,
each snapshot entry is marked running, and the snapshot (converted) is
returned.  (The Go loop interleaves `MarkRunning` with the conversion of
fields `MarkRunning` does not touch, which is equivalent to marking after
the snapshot.) -/
def getPendingCommandsRPC (s : AgentStore) (q : CommandQueue) (agentID : String) :
    Except GrpcCode (List CommandRequest) × CommandQueue :=
  if agentID = "" then (Except.error GrpcCode.invalidArgument, q)
  else
    match s.get agentID with
    | none => (Except.error GrpcCode.notFound, q)
    | some _ =>
        let pending := q.getPendingForAgent agentID
        let q' := pending.foldl (fun acc c => (acc.markRunning c.requestID).1) q
        (Except.ok (pending.map toCommandRequest), q')

/-- The `GRPCServer.SubmitCommandResult`: empty request id is INVALID_ARGUMENT;
a non-empty `error_message` fails the entry, otherwise the full result
completes it.  (The handler ignores the broker's boolean and reports
success either way.) -/
def submitCommandResult (q : CommandQueue) (requestID stdout stderr : String)
    (exitCode : Int) (errorMessage : String) : Except GrpcCode Bool × CommandQueue :=
  if requestID = "" then (Except.error GrpcCode.invalidArgument, q)
  else if errorMessage ≠ "" then
    (Except.ok true, (q.fail requestID errorMessage).1)
  else
    let result : CommandResult :=
      { requestID := requestID, stdout := stdout, stderr := stderr,
        exitCode := exitCode, errorMessage := errorMessage, completed := false }
    (Except.ok true, (q.complete requestID result).1)

/-! ### HTTP exec handler (`handleExecCommand`) -/

/-- One `time.Second` in nanoseconds. -/
def secondNs : Int := 1000000000

/-- Signed 64-bit wrap, as Go's `int64` multiplication overflow behaves. -/
def wrap64 (x : Int) : Int := (x + 2 ^ 63) % 2 ^ 64 - 2 ^ 63

/-- The `DefaultExecTimeout = 30 * time.Second`. -/
def defaultExecTimeoutNs : Int := 30 * secondNs

/-- The `MaxExecTimeout = 5 * time.Minute`. -/
def maxExecTimeoutNs : Int := 5 * 60 * secondNs

/-- The timeout computation of `handleExecCommand`:
`timeout := DefaultExecTimeout; if req.Timeout > 0 then
timeout = time.Duration(req.Timeout) * time.Second (an int64 product, which
wraps); if timeout > MaxExecTimeout then timeout = MaxExecTimeout`.
`reqTimeout` is the JSON `timeout` field (a 64-bit int). -/
def effectiveTimeoutNs (reqTimeout : Int) : Int :=
  if reqTimeout > 0 then
    let t := wrap64 (reqTimeout * secondNs)
    if t > maxExecTimeoutNs then maxExecTimeoutNs else t
  else defaultExecTimeoutNs

/-- The `ExecResponse`: `error = ""` models the omitted (unset) JSON field. -/
structure ExecResponse where
  output : String
  exitCode : Int
  error : String
deriving DecidableEq, Repr

/-- Response assembly at the end of `handleExecCommand`:
stdout, then stderr, separated by a newline when both are non-empty;
`Error` is assigned only when the result carries an error message. -/
def buildExecResponse (result : CommandResult) : ExecResponse :=
  let out0 := if result.stdout.length > 0 then result.stdout else ""
  let out1 :=
    if result.stderr.length > 0 then
      (if out0 ≠ "" then out0 ++ "\n" else out0) ++ result.stderr
    else out0
  { output := out1, exitCode := result.exitCode,
    error := if result.errorMessage ≠ "" then result.errorMessage else "" }

/-! ### Auth: users, refresh tokens, handlers
(`internal/central/auth_handlers.go`, refresh-token CRUD of the SQLite
store).  `hashFn` stands for `hashToken` (hex-encoded SHA-256); `checkPw`
stands for `auth.CheckPassword` (bcrypt comparison). -/

/-- The `User` (the fields the handlers read). -/
structure User where
  id : String
  email : String
  passwordHash : String
  name : String
  isActive : Bool
deriving DecidableEq, Repr

/-- The `RefreshToken` (times as `Nat`). -/
structure RefreshToken where
  id : String
  userID : String
  tokenHash : String
  expiresAt : Nat
  createdAt : Nat
deriving DecidableEq, Repr

/-- The `refresh_tokens` table. -/
abbrev RefreshTokenTable := List RefreshToken

/-- The `GetRefreshTokenByHash`: `QueryRow ... WHERE token_hash = ?` — the first
row whose hash matches, or `none`. -/
def getRefreshTokenByHash (db : RefreshTokenTable) (tokenHash : String) :
    Option RefreshToken :=
  db.find? (fun rt => rt.tokenHash == tokenHash)

/-- The `DeleteRefreshToken`: `DELETE FROM refresh_tokens WHERE id = ?`.
The key is the record **id**, not the token hash. -/
def deleteRefreshToken (db : RefreshTokenTable) (id : String) : RefreshTokenTable :=
  db.filter (fun rt => !(rt.id == id))

/-- The `CreateRefreshToken`: inserts the row. -/
def createRefreshToken (db : RefreshTokenTable) (rt : RefreshToken) : RefreshTokenTable :=
  db ++ [rt]

/-- The `GetUserByEmail` (row lookup; `nil, nil` on no rows). -/
def getUserByEmail (users : List User) (email : String) : Option User :=
  users.find? (fun u => u.email == email)

/-- The `GetUserByID`. -/
def getUserByID (users : List User) (id : String) : Option User :=
  users.find? (fun u => u.id == id)

/-- The persistent state the auth handlers touch. -/
structure AuthDB where
  users : List User
  refreshTokens : RefreshTokenTable
deriving DecidableEq, Repr

/-- HTTP outcome of `HandleLogin`. -/
inductive LoginOutcome
  | invalidCredentials
  | accountDisabled
  | success
deriving DecidableEq, Repr

/-- The `HandleLogin` (after a well-formed body and an error-free store read):
unknown email and wrong password are both `invalid credentials` (401);
the active check runs only after the password check; an inactive user with
the right password gets `account is disabled` (403). -/
def handleLogin (checkPw : String → String → Bool) (users : List User)
    (email password : String) : LoginOutcome :=
  match getUserByEmail users email with
  | none => LoginOutcome.invalidCredentials
  | some user =>
      if !(checkPw password user.passwordHash) then LoginOutcome.invalidCredentials
      else if !user.isActive then LoginOutcome.accountDisabled
      else LoginOutcome.success

/-- The `HandleLogout` (after a well-formed body): hashes the presented refresh
token and passes **the hash** to `store.DeleteRefreshToken`, whose key is
the record id. -/
def handleLogout (hashFn : String → String) (db : AuthDB) (presented : String) : AuthDB :=
  { db with refreshTokens := deleteRefreshToken db.refreshTokens (hashFn presented) }

/-- HTTP outcome of `HandleRefresh`; `issued` carries the newly persisted
refresh record and the plaintext returned to the client (access-token
generation carries no state relevant to these claims). -/
inductive RefreshOutcome
  | invalidToken
  | expiredToken
  | userNotFound
  | issued (newRecord : RefreshToken) (refreshPlain : String)
deriving DecidableEq, Repr

/-- The `HandleRefresh` (after a well-formed body and error-free store calls):
look the presented value up by hash; missing → 401; expired → delete and
401; otherwise delete the used record (rotation), resolve the user, and
issue a fresh pair — `issueTokens` persists a new record whose hash is
`hashFn newPlain` (`GenerateRefreshToken` hashes the fresh plaintext with
the same SHA-256).  `newID`/`newPlain` stand for the random material. -/
def handleRefresh (hashFn : String → String) (db : AuthDB) (presented : String)
    (now : Nat) (newID newPlain : String) (refreshExpiry : Nat) :
    RefreshOutcome × AuthDB :=
  match getRefreshTokenByHash db.refreshTokens (hashFn presented) with
  | none => (RefreshOutcome.invalidToken, db)
  | some rt =>
      if now > rt.expiresAt then
        (RefreshOutcome.expiredToken,
         { db with refreshTokens := deleteRefreshToken db.refreshTokens rt.id })
      else
        let db1 := { db with refreshTokens := deleteRefreshToken db.refreshTokens rt.id }
        match getUserByID db.users rt.userID with
        | none => (RefreshOutcome.userNotFound, db1)
        | some user =>
            let newRt : RefreshToken :=
              { id := newID, userID := user.id, tokenHash := hashFn newPlain,
                expiresAt := now + refreshExpiry, createdAt := now }
            (RefreshOutcome.issued newRt newPlain,
             { db1 with refreshTokens := createRefreshToken db1.refreshTokens newRt })

/-! ### Concrete fixtures and derived definitions used by the claims -/

/-- Stand-in for hex-encoded SHA-256 in concrete evaluations: collision-free
on the inputs used here, and (like a 64-hex-character digest against a
36-character UUID) never equal to a record id. -/
def exHash (s : String) : String := "sha256:" ++ s

/-- A stored refresh token: record id `rt-uuid-1` (a UUID in the real
store), token hash `exHash "tok1"`, unexpired until time 1000. -/
def c1Token : RefreshToken :=
  { id := "rt-uuid-1", userID := "u1", tokenHash := exHash "tok1",
    expiresAt := 1000, createdAt := 0 }

/-- Auth state holding one active user and the stored token `c1Token`. -/
def c1DB : AuthDB :=
  { users := [{ id := "u1", email := "user@example.com", passwordHash := "bh",
                name := "U", isActive := true }],
    refreshTokens := [c1Token] }

/-- Registry with one accepted agent token and no agents. -/
def c2Store0 : AgentStore := { agents := [], validTokens := ["tok"] }

/-- A register request for cluster `edge-1` with the valid token. -/
def c2Req : RegisterRequest :=
  { clusterName := "edge-1", agentToken := "tok", metadata := none }

/-- Registry after a first successful attach for `edge-1` as `agent-a1`. -/
def c2Store1 : AgentStore := (grpcRegister c2Store0 c2Req "agent-a1" 0).2

/-- Registry after a second successful attach for `edge-1` as `agent-a2`. -/
def c2Store2 : AgentStore := (grpcRegister c2Store1 c2Req "agent-a2" 5).2

/-- A queue holding the single freshly enqueued entry `r1`. -/
def c3Q0 : CommandQueue :=
  CommandQueue.enqueue { commands := [] } "r1" "a1" "edge-1" ["get", "pods"] "" 30 ""

/-- The agent-reported success result for `r1`. -/
def c3Res : CommandResult :=
  { requestID := "r1", stdout := "pods", stderr := "", exitCode := 0,
    errorMessage := "", completed := false }

/-- The queue after the first terminal transition, `Complete("r1", c3Res)`. -/
def c3Q1 : CommandQueue := (c3Q0.complete "r1" c3Res).1

/-- The queue after a subsequent `Fail("r1", "boom")`. -/
def c3Q2 : CommandQueue := (c3Q1.fail "r1" "boom").1

/-- The entry for `r1` inside `c3Q1`. -/
def c3Cmd1 : PendingCommand :=
  { requestID := "r1", agentID := "a1", clusterName := "edge-1",
    command := ["get", "pods"], nspace := "", timeoutSeconds := 30, stdin := "",
    status := CommandStatus.completed, resultCh := some { c3Res with completed := true } }

/-- Fixture for the C5 witness: the queue `c3Q0` after its entry was taken
by an agent pull (`MarkRunning`), still unanswered. -/
def c5Q : CommandQueue := (c3Q0.markRunning "r1").1

/-- The running entry inside `c5Q`. -/
def c5Cmd : PendingCommand :=
  { requestID := "r1", agentID := "a1", clusterName := "edge-1",
    command := ["get", "pods"], nspace := "", timeoutSeconds := 30, stdin := "",
    status := CommandStatus.running, resultCh := none }

/-- Marking a set of request ids running, as one map. -/
def runIfIn (rs : List String) (c : PendingCommand) : PendingCommand :=
  if c.requestID ∈ rs then { c with status := CommandStatus.running } else c

/-- Registry fixture for the C6 witness: one connected agent `agent-1`. -/
def c6Store : AgentStore :=
  { agents := [{ id := "agent-1", clusterName := "edge-1", token := "tok",
                 status := AgentStatusConnected, kubernetesVersion := "1.31",
                 nodeCount := 3, region := "", provider := "",
                 registeredAt := 0, lastSeen := 0 }],
    validTokens := ["tok"] }

/-- Queue fixture for the C6 witness: two pending entries for `agent-1`
and one for another agent. -/
def c6Q : CommandQueue :=
  (((CommandQueue.mk []).enqueue "r1" "agent-1" "edge-1" ["get", "pods"] "" 30 "").enqueue
      "r2" "agent-1" "edge-1" ["get", "svc"] "ns" 30 "").enqueue
    "r3" "agent-2" "other" ["get", "pods"] "" 30 ""

/-- Auth state for the C7 witness: one active user owning one stored,
unexpired refresh token. -/
def c7DB : AuthDB :=
  { users := [{ id := "u1", email := "user@example.com", passwordHash := "bh",
                name := "U", isActive := true }],
    refreshTokens := [{ id := "rt-uuid-1", userID := "u1",
                        tokenHash := exHash "tokA", expiresAt := 1000, createdAt := 0 }] }

/-- Queue fixture for the C8 witness: one pending entry `r8`. -/
def c8Q : CommandQueue :=
  (CommandQueue.mk []).enqueue "r8" "agent-1" "edge-1" ["get", "pods"] "" 30 ""

/-- The pending entry inside `c8Q`. -/
def c8Cmd : PendingCommand :=
  { requestID := "r8", agentID := "agent-1", clusterName := "edge-1",
    command := ["get", "pods"], nspace := "", timeoutSeconds := 30, stdin := "",
    status := CommandStatus.pending, resultCh := none }

/-- Concrete stand-in for the bcrypt comparison in the C10 witness. -/
def c10CheckPw (password hash : String) : Bool := password == hash

/-- One stored, inactive user. -/
def c10Users : List User :=
  [{ id := "u2", email := "off@example.com", passwordHash := "secret",
     name := "D", isActive := false }]

/-! ### Helper lemmas -/

/-- The `find?` commutes with a map that does not disturb the predicate. -/
theorem find_map_comm {α : Type} (g : α → α) (p : α → Bool)
    (hp : ∀ a, p (g a) = p a) (l : List α) :
    (l.map g).find? p = (l.find? p).map g := by
  induction l with
  | nil => rfl
  | cons a t ih =>
      by_cases h : p a = true
      · rw [List.map_cons, List.find?_cons_of_pos _ (by rw [hp]; exact h),
          List.find?_cons_of_pos _ h, Option.map_some']
      · rw [List.map_cons, List.find?_cons_of_neg _ (by rw [hp]; simpa using h),
          List.find?_cons_of_neg _ (by simpa using h), ih]

/-- Mapping a function that fixes every member is the identity. -/
theorem map_id_of_mem {α : Type} (f : α → α) (l : List α)
    (h : ∀ x ∈ l, f x = x) : l.map f = l := by
  induction l with
  | nil => rfl
  | cons a t ih =>
      simp only [List.map_cons, h a (by simp), List.cons.injEq, true_and]
      exact ih (fun x hx => h x (by simp [hx]))

/-- The `get` after a per-entry update that preserves the request id. -/
theorem get_map (q : CommandQueue) (r : String) (g : PendingCommand → PendingCommand)
    (hg : ∀ c, (g c).requestID = c.requestID) :
    (CommandQueue.mk (q.commands.map g)).get r = (q.get r).map g := by
  unfold CommandQueue.get
  exact find_map_comm g _ (fun c => by rw [hg]) q.commands

/-- The `get` after a keyed update `if c.requestID = r then f c else c` where
`f` preserves the request id: the updated entry is found. -/
theorem get_update (q : CommandQueue) (r : String) (f : PendingCommand → PendingCommand)
    (hf : ∀ c, (f c).requestID = c.requestID) (cmd : PendingCommand)
    (h : q.get r = some cmd) :
    (CommandQueue.mk (q.commands.map (fun c => if c.requestID = r then f c else c))).get r
      = some (f cmd) := by
  have hg : ∀ c : PendingCommand,
      ((fun c => if c.requestID = r then f c else c) c).requestID = c.requestID := by
    intro c
    dsimp only
    split
    · exact hf c
    · rfl
  rw [get_map q r _ hg, h, Option.map_some']
  have hrid : cmd.requestID = r := by
    have := List.find?_some h
    simpa using this
  rw [if_pos hrid]

/-- An element found by `get` satisfies its key predicate. -/
theorem get_requestID (q : CommandQueue) (r : String) (cmd : PendingCommand)
    (h : q.get r = some cmd) : cmd.requestID = r := by
  have := List.find?_some h
  simpa using this

/-- A string has positive length iff it is non-empty. -/
theorem string_length_pos_iff (s : String) : 0 < s.length ↔ s ≠ "" := by
  cases s with
  | mk data => simp [String.length, String.ext_iff, List.length_pos]

/-! ### Concrete fixtures used to evaluate the handlers -/

/-- Claim C1. The claim fails and the code contradicts its own intent
(`HandleLogout invalidates a refresh token`): `HandleLogout` passes the
SHA-256 hash of the presented value to `store.DeleteRefreshToken`, but that
store operation deletes by record **id** (`DELETE ... WHERE id = ?`).  The
record's id (a UUID) is not the hash, so nothing is deleted: after logout
the record whose `token_hash` is the hash of the presented value still
exists, and a subsequent refresh with the same value succeeds (issues a new
pair) instead of failing as unauthorized. -/
theorem C1_logout_is_noop_refresh_still_succeeds :
    handleLogout exHash c1DB "tok1" = c1DB ∧
    getRefreshTokenByHash (handleLogout exHash c1DB "tok1").refreshTokens
      (exHash "tok1") = some c1Token ∧
    (handleRefresh exHash (handleLogout exHash c1DB "tok1") "tok1" 10
        "rt-uuid-2" "tok2" 500).1 =
      RefreshOutcome.issued
        { id := "rt-uuid-2", userID := "u1", tokenHash := exHash "tok2",
          expiresAt := 510, createdAt := 10 } "tok2" :=
  ⟨rfl, rfl, rfl⟩

/-! ### C2: one connected agent per cluster name -/

/-- Claim C2, counterexample. Both attaches for cluster `edge-1` succeed, and
the resulting reachable registry state holds **two** entries for
`edge-1` with status `connected`: the prior entry is not displaced, so the
at-most-one-connected-agent-per-cluster_name invariant is false. -/
theorem C2_counterexample_two_connected_agents_one_cluster :
    (grpcRegister c2Store0 c2Req "agent-a1" 0).1.success = true ∧
    (grpcRegister c2Store1 c2Req "agent-a2" 5).1.success = true ∧
    (c2Store2.agents.filter
      (fun a => a.clusterName == "edge-1" && a.status == AgentStatusConnected)).length = 2 :=
  ⟨rfl, rfl, rfl⟩

/-- Claim C2, amended. `AgentStore.Register` keys solely by `agent_id`: called
with an `AgentInfo` whose id is fresh, it appends a new `connected` entry
and leaves every prior entry — including one with the same `cluster_name`
— exactly in place (no displacement). -/
theorem C2_register_keyed_by_agent_id (s : AgentStore) (info : AgentInfo) (now : Nat)
    (hfresh : ∀ a ∈ s.agents, a.id ≠ info.id) :
    (s.register info now).agents =
      s.agents ++ [{ info with registeredAt := now, lastSeen := now,
                               status := AgentStatusConnected }] := by
  unfold AgentStore.register
  have hany : s.agents.any (fun a => a.id == info.id) = false := by
    rw [List.any_eq_false]
    intro a ha
    simpa using hfresh a ha
  simp [hany]

/-- Witness for the amended C2 at a registry already holding a connected
agent for `edge-1`: the re-attach under a fresh agent id appends. -/
theorem C2_register_keyed_by_agent_id_witness :
    (c2Store1.register
      { id := "agent-a2", clusterName := "edge-1", token := "tok", status := "",
        kubernetesVersion := "", nodeCount := 0, region := "", provider := "",
        registeredAt := 0, lastSeen := 0 } 5).agents =
      c2Store1.agents ++
        [{ id := "agent-a2", clusterName := "edge-1", token := "tok",
           status := AgentStatusConnected, kubernetesVersion := "", nodeCount := 0,
           region := "", provider := "", registeredAt := 5, lastSeen := 5 }] :=
  C2_register_keyed_by_agent_id c2Store1 _ 5 (by decide)

/-! ### C3/C4: terminal transitions on the broker -/

/-- Claim C3, counterexample. `Complete` and `Fail` never check for a prior
terminal status: after `Complete("r1", …)` set the status to `completed`, a
subsequent `Fail("r1", "boom")` is **not** a no-op — it overwrites the
entry's status to `failed`. -/
theorem C3_counterexample_fail_overwrites_completed_status :
    (c3Q1.get "r1").map PendingCommand.status = some CommandStatus.completed ∧
    (c3Q2.get "r1").map PendingCommand.status = some CommandStatus.failed :=
  ⟨rfl, rfl⟩

/-- Claim C3, amended. On an entry whose rendezvous channel already holds the
result published by the first terminal transition, a subsequent `Complete`
or `Fail` overwrites the entry's **status** field with its own terminal
status but leaves the stored result untouched: the capacity-1 channel keeps
the first published result (the second send is dropped). -/
theorem C3_second_terminal_call_keeps_result_overwrites_status
    (q : CommandQueue) (r : String) (cmd : PendingCommand) (res0 : CommandResult)
    (h : q.get r = some cmd) (h0 : cmd.resultCh = some res0)
    (res : CommandResult) (msg : String) :
    (q.complete r res).1.get r = some { cmd with status := CommandStatus.completed } ∧
    (q.fail r msg).1.get r = some { cmd with status := CommandStatus.failed } := by
  constructor
  · have hq : (q.complete r res).1 = CommandQueue.mk (q.commands.map (fun c =>
        if c.requestID = r then
          { c with status := CommandStatus.completed,
                   resultCh := match c.resultCh with
                               | none => some { res with completed := true }
                               | some x => some x } else c)) := by
      unfold CommandQueue.complete
      rw [h]
    have key := get_update q r (fun c =>
      { c with status := CommandStatus.completed,
               resultCh := match c.resultCh with
                           | none => some { res with completed := true }
                           | some x => some x }) (fun c => rfl) cmd h
    rw [hq, key]
    simp only [h0]
  · have hq : (q.fail r msg).1 = CommandQueue.mk (q.commands.map (fun c =>
        if c.requestID = r then
          { c with status := CommandStatus.failed,
                   resultCh := match c.resultCh with
                               | none => some (failResult r msg)
                               | some x => some x } else c)) := by
      unfold CommandQueue.fail
      rw [h]
    have key := get_update q r (fun c =>
      { c with status := CommandStatus.failed,
               resultCh := match c.resultCh with
                           | none => some (failResult r msg)
                           | some x => some x }) (fun c => rfl) cmd h
    rw [hq, key]
    simp only [h0]

/-- Witness for the amended C3 on the concrete queue `c3Q1`, whose channel
holds the first result: a second `Complete` and a `Fail` each only change
the status. -/
theorem C3_second_terminal_call_witness :
    (c3Q1.complete "r1" { requestID := "r1", stdout := "late", stderr := "",
                          exitCode := 2, errorMessage := "", completed := false }).1.get "r1" =
      some { c3Cmd1 with status := CommandStatus.completed } ∧
    (c3Q1.fail "r1" "boom").1.get "r1" =
      some { c3Cmd1 with status := CommandStatus.failed } :=
  C3_second_terminal_call_keeps_result_overwrites_status c3Q1 "r1" c3Cmd1
    { c3Res with completed := true } rfl rfl _ "boom"

/-- Claim C4. After `Complete(r, v)` and then `Fail(r, e)`, a waiter that
reaches the rendezvous before its deadline receives `v` (with the
`Completed` flag `Complete` itself sets), not the failure result: the
second terminal call never alters the delivered result. -/
theorem C4_waiter_receives_first_result
    (q : CommandQueue) (r : String) (cmd : PendingCommand) (v : CommandResult)
    (e : String) (h : q.get r = some cmd) (hch : cmd.resultCh = none) :
    (((q.complete r v).1.fail r e).1.waitForResult r false).1 =
      WaitOutcome.result { v with completed := true } := by
  have hq1 : (q.complete r v).1 = CommandQueue.mk (q.commands.map (fun c =>
      if c.requestID = r then
        { c with status := CommandStatus.completed,
                 resultCh := match c.resultCh with
                             | none => some { v with completed := true }
                             | some x => some x } else c)) := by
    unfold CommandQueue.complete
    rw [h]
  have h1 : (q.complete r v).1.get r =
      some { cmd with status := CommandStatus.completed,
                      resultCh := some { v with completed := true } } := by
    have key := get_update q r (fun c =>
      { c with status := CommandStatus.completed,
               resultCh := match c.resultCh with
                           | none => some { v with completed := true }
                           | some x => some x }) (fun c => rfl) cmd h
    rw [hq1, key]
    simp only [hch]
  have hq2 : ((q.complete r v).1.fail r e).1 =
      CommandQueue.mk ((q.complete r v).1.commands.map (fun c =>
        if c.requestID = r then
          { c with status := CommandStatus.failed,
                   resultCh := match c.resultCh with
                               | none => some (failResult r e)
                               | some x => some x } else c)) := by
    unfold CommandQueue.fail
    rw [h1]
  have h2 : ((q.complete r v).1.fail r e).1.get r =
      some { cmd with status := CommandStatus.failed,
                      resultCh := some { v with completed := true } } := by
    have key := get_update (q.complete r v).1 r (fun c =>
      { c with status := CommandStatus.failed,
               resultCh := match c.resultCh with
                           | none => some (failResult r e)
                           | some x => some x }) (fun c => rfl) _ h1
    rw [hq2, key]
  unfold CommandQueue.waitForResult
  rw [h2]

/-- Witness for C4 on the concrete queue `c3Q0`: after a `Complete` with
`c3Res` and a late `Fail`, the waiter receives `c3Res`. -/
theorem C4_waiter_receives_first_result_witness :
    (((c3Q0.complete "r1" c3Res).1.fail "r1" "late").1.waitForResult "r1" false).1 =
      WaitOutcome.result { c3Res with completed := true } :=
  C4_waiter_receives_first_result c3Q0 "r1"
    { requestID := "r1", agentID := "a1", clusterName := "edge-1",
      command := ["get", "pods"], nspace := "", timeoutSeconds := 30, stdin := "",
      status := CommandStatus.pending, resultCh := none } c3Res "late" rfl rfl

/-! ### C5: timeout path of the rendezvous wait -/

/-- Claim C5. For an entry whose rendezvous channel is still empty (no
`Complete`/`Fail` has published a result) when the caller's context
deadline fires, `WaitForResult` returns the context error; the entry
transitions to `timeout` exactly when it was still `pending` or `running`,
and an entry already `completed` or `failed` keeps its terminal status. -/
theorem C5_wait_deadline_returns_ctx_error_and_times_out
    (q : CommandQueue) (r : String) (cmd : PendingCommand)
    (h : q.get r = some cmd) (hch : cmd.resultCh = none) :
    (q.waitForResult r true).1 = WaitOutcome.ctxErr ∧
    ((q.waitForResult r true).2.get r).map PendingCommand.status =
      some (if cmd.status = CommandStatus.pending ∨ cmd.status = CommandStatus.running
            then CommandStatus.timeout else cmd.status) ∧
    (cmd.status ≠ CommandStatus.timeout →
      (((q.waitForResult r true).2.get r).map PendingCommand.status =
          some CommandStatus.timeout ↔
        (cmd.status = CommandStatus.pending ∨ cmd.status = CommandStatus.running))) := by
  have hrid : cmd.requestID = r := get_requestID q r cmd h
  have hw : q.waitForResult r true =
      (WaitOutcome.ctxErr,
       CommandQueue.mk (q.commands.map (fun c =>
         if c.requestID == r &&
            (c.status == CommandStatus.pending || c.status == CommandStatus.running)
         then { c with status := CommandStatus.timeout } else c))) := by
    unfold CommandQueue.waitForResult
    rw [h]
    dsimp only
    rw [hch]
    rfl
  have hg : ∀ c : PendingCommand,
      ((fun c =>
        if c.requestID == r &&
           (c.status == CommandStatus.pending || c.status == CommandStatus.running)
        then { c with status := CommandStatus.timeout } else c) c).requestID
        = c.requestID := by
    intro c
    dsimp only
    split
    · rfl
    · rfl
  have hget : (q.waitForResult r true).2.get r =
      some (if cmd.requestID == r &&
               (cmd.status == CommandStatus.pending || cmd.status == CommandStatus.running)
            then { cmd with status := CommandStatus.timeout } else cmd) := by
    rw [hw]
    dsimp only
    rw [get_map q r _ hg, h, Option.map_some']
  refine ⟨by rw [hw], ?_, ?_⟩
  · rw [hget]
    cases hst : cmd.status <;> simp [hrid, hst]
  · intro hnt
    rw [hget]
    cases hst : cmd.status
    · simp [hrid, hst]
    · simp [hrid, hst]
    · simp [hrid, hst]
    · simp [hrid, hst]
    · exact absurd hst hnt

/-- Witness for C5 at the concrete running entry: deadline yields the
context error and the entry times out. -/
theorem C5_wait_deadline_witness :
    (c5Q.waitForResult "r1" true).1 = WaitOutcome.ctxErr ∧
    ((c5Q.waitForResult "r1" true).2.get "r1").map PendingCommand.status =
      some (if c5Cmd.status = CommandStatus.pending ∨ c5Cmd.status = CommandStatus.running
            then CommandStatus.timeout else c5Cmd.status) :=
  ⟨(C5_wait_deadline_returns_ctx_error_and_times_out c5Q "r1" c5Cmd rfl rfl).1,
   (C5_wait_deadline_returns_ctx_error_and_times_out c5Q "r1" c5Cmd rfl rfl).2.1⟩

/-! ### C6: pulling pending commands marks them running -/

/-- The queue component of `MarkRunning` is always the keyed status update
(the no-entry case updates nothing). -/
theorem markRunning_commands (q : CommandQueue) (r : String) :
    ((q.markRunning r).1).commands =
      q.commands.map (fun c =>
        if c.requestID = r then { c with status := CommandStatus.running } else c) := by
  unfold CommandQueue.markRunning
  cases hfind : q.get r with
  | some c => rfl
  | none =>
      dsimp only
      symm
      apply map_id_of_mem
      intro c hc
      have hne := List.find?_eq_none.mp hfind c hc
      rw [if_neg]
      intro hEq
      exact hne (by simp [hEq])

/-- Folding `MarkRunning` over a list of request ids equals the single
`runIfIn` map. -/
theorem foldl_markRunning (rs : List String) (q : CommandQueue) :
    (rs.foldl (fun acc r => (acc.markRunning r).1) q).commands =
      q.commands.map (runIfIn rs) := by
  induction rs generalizing q with
  | nil =>
      dsimp only [List.foldl]
      symm
      apply map_id_of_mem
      intro c _
      simp [runIfIn]
  | cons r rs ih =>
      rw [List.foldl_cons, ih, markRunning_commands, List.map_map]
      apply List.map_congr_left
      intro c _
      by_cases hr : c.requestID = r
      · by_cases hin : c.requestID ∈ rs
        · simp [runIfIn, Function.comp, hr, hin, List.mem_cons]
        · simp [runIfIn, Function.comp, hr, hin, List.mem_cons]
      · by_cases hin : c.requestID ∈ rs
        · simp [runIfIn, Function.comp, hr, hin, List.mem_cons]
        · simp [runIfIn, Function.comp, hr, hin, List.mem_cons]

/-- After the `GetPendingCommands` loop marks every snapshot entry running,
the pending lookup for that agent is empty. -/
theorem pending_after_pull (q : CommandQueue) (a : String) :
    ((q.getPendingForAgent a).foldl
        (fun acc c => (acc.markRunning c.requestID).1) q).getPendingForAgent a = [] := by
  have hfold : (q.getPendingForAgent a).foldl
      (fun acc c => (acc.markRunning c.requestID).1) q =
      ((q.getPendingForAgent a).map (fun c => c.requestID)).foldl
        (fun acc r => (acc.markRunning r).1) q := by
    rw [List.foldl_map]
  rw [hfold]
  set rs := (q.getPendingForAgent a).map (fun c => c.requestID) with hrs
  have hq2 : (rs.foldl (fun acc r => (acc.markRunning r).1) q).getPendingForAgent a =
      (q.commands.map (runIfIn rs)).filter
        (fun c => c.agentID == a && c.status == CommandStatus.pending) := by
    unfold CommandQueue.getPendingForAgent
    rw [foldl_markRunning]
  rw [hq2, List.filter_eq_nil_iff]
  intro x hx
  obtain ⟨c, hc, rfl⟩ := List.mem_map.mp hx
  by_cases hin : c.requestID ∈ rs
  · simp [runIfIn, hin]
  · simp only [runIfIn, if_neg hin]
    intro hpred
    apply hin
    rw [hrs]
    apply List.mem_map.mpr
    refine ⟨c, ?_, rfl⟩
    exact List.mem_filter.mpr ⟨hc, hpred⟩

/-- Claim C6, counterexample. A `GetPendingCommands` call with an empty
`agent_id` — an id that is not registered — returns INVALID_ARGUMENT, not
the NOT_FOUND the claim promises for every unregistered id. -/
theorem C6_counterexample_empty_agent_id :
    AgentStore.empty.get "" = none ∧
    (getPendingCommandsRPC AgentStore.empty (CommandQueue.mk []) "").1 =
      Except.error GrpcCode.invalidArgument ∧
    GrpcCode.invalidArgument ≠ GrpcCode.notFound :=
  ⟨rfl, rfl, by decide⟩

/-- Claim C6, amended. For a **non-empty** `agent_id`: an unregistered id
returns NOT_FOUND with the queue untouched; a registered one returns
exactly the entries targeting that agent with status `pending` and
transitions each to `running`, so the subsequent pending lookup for that
agent is empty.  (An empty `agent_id` returns INVALID_ARGUMENT.) -/
theorem C6_pending_pull_marks_running (s : AgentStore) (q : CommandQueue) (a : String)
    (ha : a ≠ "") :
    (s.get a = none → getPendingCommandsRPC s q a = (Except.error GrpcCode.notFound, q)) ∧
    (∀ info, s.get a = some info →
      (getPendingCommandsRPC s q a).1 =
        Except.ok ((q.getPendingForAgent a).map toCommandRequest) ∧
      (getPendingCommandsRPC s q a).2.getPendingForAgent a = []) := by
  constructor
  · intro h
    unfold getPendingCommandsRPC
    rw [if_neg ha, h]
  · intro info h
    unfold getPendingCommandsRPC
    rw [if_neg ha, h]
    exact ⟨rfl, pending_after_pull q a⟩

/-- Witness for the amended C6 at the concrete registry and queue. -/
theorem C6_pending_pull_witness :
    (getPendingCommandsRPC c6Store c6Q "agent-1").1 =
      Except.ok ((c6Q.getPendingForAgent "agent-1").map toCommandRequest) ∧
    (getPendingCommandsRPC c6Store c6Q "agent-1").2.getPendingForAgent "agent-1" = [] ∧
    getPendingCommandsRPC c6Store c6Q "agent-404" = (Except.error GrpcCode.notFound, c6Q) := by
  refine ⟨?_, ?_, ?_⟩
  · exact ((C6_pending_pull_marks_running c6Store c6Q "agent-1" (by decide)).2 _ rfl).1
  · exact ((C6_pending_pull_marks_running c6Store c6Q "agent-1" (by decide)).2 _ rfl).2
  · exact (C6_pending_pull_marks_running c6Store c6Q "agent-404" (by decide)).1 rfl

/-! ### C7: refresh rotation and one-shot use -/

/-- Claim C7. `HandleRefresh`: a presented value whose hash is not stored
fails (401) leaving the store untouched; an expired record is deleted and
the request fails without issuing tokens; a stored, unexpired record is
deleted (rotation) before the new access/refresh pair is issued, so — the
stored hash being unique to that record and the fresh token hashing
differently — the same refresh value presented again fails as
unauthorized. -/
theorem C7_refresh_rotation_one_shot (hashFn : String → String) (db : AuthDB)
    (tok : String) (now : Nat) (newID newPlain : String) (rexp : Nat) :
    (getRefreshTokenByHash db.refreshTokens (hashFn tok) = none →
      handleRefresh hashFn db tok now newID newPlain rexp =
        (RefreshOutcome.invalidToken, db)) ∧
    (∀ rt, getRefreshTokenByHash db.refreshTokens (hashFn tok) = some rt →
      now > rt.expiresAt →
      handleRefresh hashFn db tok now newID newPlain rexp =
        (RefreshOutcome.expiredToken,
         { db with refreshTokens := deleteRefreshToken db.refreshTokens rt.id })) ∧
    (∀ rt user, getRefreshTokenByHash db.refreshTokens (hashFn tok) = some rt →
      ¬ now > rt.expiresAt →
      getUserByID db.users rt.userID = some user →
      (∀ rt2 ∈ db.refreshTokens, rt2.tokenHash = hashFn tok → rt2.id = rt.id) →
      hashFn newPlain ≠ hashFn tok →
      handleRefresh hashFn db tok now newID newPlain rexp =
        (RefreshOutcome.issued
           { id := newID, userID := user.id, tokenHash := hashFn newPlain,
             expiresAt := now + rexp, createdAt := now } newPlain,
         { db with refreshTokens :=
                     createRefreshToken (deleteRefreshToken db.refreshTokens rt.id)
                       { id := newID, userID := user.id, tokenHash := hashFn newPlain,
                         expiresAt := now + rexp, createdAt := now } }) ∧
      getRefreshTokenByHash
        (handleRefresh hashFn db tok now newID newPlain rexp).2.refreshTokens
        (hashFn tok) = none ∧
      (∀ now2 id2 p2 e2,
        (handleRefresh hashFn (handleRefresh hashFn db tok now newID newPlain rexp).2
            tok now2 id2 p2 e2).1 = RefreshOutcome.invalidToken)) := by
  refine ⟨?_, ?_, ?_⟩
  · intro hnone
    unfold handleRefresh
    rw [hnone]
  · intro rt hfind hexp
    unfold handleRefresh
    rw [hfind]
    dsimp only
    rw [if_pos hexp]
  · intro rt user hfind hexp huser huniq hfreshHash
    have hmain : handleRefresh hashFn db tok now newID newPlain rexp =
        (RefreshOutcome.issued
           { id := newID, userID := user.id, tokenHash := hashFn newPlain,
             expiresAt := now + rexp, createdAt := now } newPlain,
         { db with refreshTokens :=
                     createRefreshToken (deleteRefreshToken db.refreshTokens rt.id)
                       { id := newID, userID := user.id, tokenHash := hashFn newPlain,
                         expiresAt := now + rexp, createdAt := now } }) := by
      unfold handleRefresh
      rw [hfind]
      dsimp only
      rw [if_neg hexp, huser]
    have hgone0 : getRefreshTokenByHash
        (createRefreshToken (deleteRefreshToken db.refreshTokens rt.id)
          { id := newID, userID := user.id, tokenHash := hashFn newPlain,
            expiresAt := now + rexp, createdAt := now }) (hashFn tok) = none := by
      unfold getRefreshTokenByHash createRefreshToken deleteRefreshToken
      rw [List.find?_eq_none]
      intro x hx
      rcases List.mem_append.mp hx with hmem | hsing
      · obtain ⟨hxdb, hxid⟩ := List.mem_filter.mp hmem
        intro hbeq
        have hxh : x.tokenHash = hashFn tok := by simpa using hbeq
        have := huniq x hxdb hxh
        simp [this] at hxid
      · have hx2 : x = { id := newID, userID := user.id, tokenHash := hashFn newPlain,
                         expiresAt := now + rexp, createdAt := now } := by
          simpa using hsing
        rw [hx2]
        simpa using hfreshHash
    have hgone : getRefreshTokenByHash
        (handleRefresh hashFn db tok now newID newPlain rexp).2.refreshTokens
        (hashFn tok) = none := by
      rw [hmain]
      exact hgone0
    refine ⟨hmain, hgone, ?_⟩
    intro now2 id2 p2 e2
    rw [hmain]
    unfold handleRefresh
    dsimp only
    rw [hgone0]

/-- Witness for C7 at the concrete store: refresh rotates and the same
value fails the second time. -/
theorem C7_refresh_rotation_witness :
    handleRefresh exHash c7DB "tokA" 10 "rt-uuid-2" "tokB" 500 =
      (RefreshOutcome.issued
         { id := "rt-uuid-2", userID := "u1", tokenHash := exHash "tokB",
           expiresAt := 510, createdAt := 10 } "tokB",
       { c7DB with refreshTokens :=
                     createRefreshToken (deleteRefreshToken c7DB.refreshTokens "rt-uuid-1")
                       { id := "rt-uuid-2", userID := "u1", tokenHash := exHash "tokB",
                         expiresAt := 510, createdAt := 10 } }) ∧
    getRefreshTokenByHash
      (handleRefresh exHash c7DB "tokA" 10 "rt-uuid-2" "tokB" 500).2.refreshTokens
      (exHash "tokA") = none ∧
    (handleRefresh exHash (handleRefresh exHash c7DB "tokA" 10 "rt-uuid-2" "tokB" 500).2
        "tokA" 20 "rt-uuid-3" "tokC" 500).1 = RefreshOutcome.invalidToken := by
  have h := (C7_refresh_rotation_one_shot exHash c7DB "tokA" 10 "rt-uuid-2" "tokB" 500).2.2
    { id := "rt-uuid-1", userID := "u1", tokenHash := exHash "tokA",
      expiresAt := 1000, createdAt := 0 }
    { id := "u1", email := "user@example.com", passwordHash := "bh",
      name := "U", isActive := true }
    rfl (by decide) rfl (by decide) (by decide)
  exact ⟨h.1, h.2.1, h.2.2 20 "rt-uuid-3" "tokC" 500⟩

/-! ### C8: exec response assembly -/

/-- The assembled `output`: stdout when stderr is empty, stderr when stdout
is empty, and stdout, a newline, stderr when both are non-empty. -/
theorem buildExecResponse_output (res : CommandResult) :
    (buildExecResponse res).output =
      if res.stderr = "" then res.stdout
      else if res.stdout = "" then res.stderr
      else res.stdout ++ "\n" ++ res.stderr := by
  unfold buildExecResponse
  by_cases hso : res.stdout = ""
  · by_cases hse : res.stderr = ""
    · simp [hso, hse, string_length_pos_iff]
    · simp [hso, hse, string_length_pos_iff]
  · by_cases hse : res.stderr = ""
    · simp [hso, hse, string_length_pos_iff]
    · simp [hso, hse, string_length_pos_iff]

/-- The assembled `error` field always carries the result's message
(`""` meaning unset). -/
theorem buildExecResponse_error (res : CommandResult) :
    (buildExecResponse res).error = res.errorMessage := by
  unfold buildExecResponse
  by_cases h : res.errorMessage = ""
  · simp [h]
  · simp [h]

/-- The exit code is passed through unchanged. -/
theorem buildExecResponse_exitCode (res : CommandResult) :
    (buildExecResponse res).exitCode = res.exitCode := rfl

/-- The `Complete` then an undisturbed wait delivers the completed result. -/
theorem complete_then_wait (q : CommandQueue) (r : String) (cmd : PendingCommand)
    (v : CommandResult) (h : q.get r = some cmd) (hch : cmd.resultCh = none) :
    ((q.complete r v).1.waitForResult r false).1 =
      WaitOutcome.result { v with completed := true } := by
  have hq1 : (q.complete r v).1 = CommandQueue.mk (q.commands.map (fun c =>
      if c.requestID = r then
        { c with status := CommandStatus.completed,
                 resultCh := match c.resultCh with
                             | none => some { v with completed := true }
                             | some x => some x } else c)) := by
    unfold CommandQueue.complete
    rw [h]
  have key := get_update q r (fun c =>
    { c with status := CommandStatus.completed,
             resultCh := match c.resultCh with
                         | none => some { v with completed := true }
                         | some x => some x }) (fun c => rfl) cmd h
  have h1 : (q.complete r v).1.get r =
      some { cmd with status := CommandStatus.completed,
                      resultCh := some { v with completed := true } } := by
    rw [hq1, key]
    simp only [hch]
  unfold CommandQueue.waitForResult
  rw [h1]

/-- The `Fail` then an undisturbed wait delivers the failure result. -/
theorem fail_then_wait (q : CommandQueue) (r : String) (cmd : PendingCommand)
    (e : String) (h : q.get r = some cmd) (hch : cmd.resultCh = none) :
    ((q.fail r e).1.waitForResult r false).1 = WaitOutcome.result (failResult r e) := by
  have hq1 : (q.fail r e).1 = CommandQueue.mk (q.commands.map (fun c =>
      if c.requestID = r then
        { c with status := CommandStatus.failed,
                 resultCh := match c.resultCh with
                             | none => some (failResult r e)
                             | some x => some x } else c)) := by
    unfold CommandQueue.fail
    rw [h]
  have key := get_update q r (fun c =>
    { c with status := CommandStatus.failed,
             resultCh := match c.resultCh with
                         | none => some (failResult r e)
                         | some x => some x }) (fun c => rfl) cmd h
  have h1 : (q.fail r e).1.get r =
      some { cmd with status := CommandStatus.failed,
                      resultCh := some (failResult r e) } := by
    rw [hq1, key]
    simp only [hch]
  unfold CommandQueue.waitForResult
  rw [h1]

/-- Claim C8. For a result submitted by the agent on a waited-for entry, the
waiter receives: the agent's stdout/stderr/exit code when `error_message`
is empty, else the failure result with exit code `-1` and empty output
streams.  The assembled response's `output` is stdout when stderr is empty,
stderr when stdout is empty, and stdout, newline, stderr when both are
non-empty; `error` equals the agent's `error_message` (set iff non-empty);
and `exit_code` is the agent's code, or `-1` on an execution-level
failure. -/
theorem C8_exec_response_assembly (q : CommandQueue) (r : String) (cmd : PendingCommand)
    (h : q.get r = some cmd) (hch : cmd.resultCh = none) (hr : r ≠ "")
    (stdout stderr : String) (exitCode : Int) (errorMessage : String)
    (res : CommandResult)
    (hres : res = if errorMessage = "" then
        { requestID := r, stdout := stdout, stderr := stderr, exitCode := exitCode,
          errorMessage := "", completed := true }
      else failResult r errorMessage) :
    ((submitCommandResult q r stdout stderr exitCode errorMessage).2.waitForResult
        r false).1 = WaitOutcome.result res ∧
    (buildExecResponse res).output =
      (if res.stderr = "" then res.stdout
       else if res.stdout = "" then res.stderr
       else res.stdout ++ "\n" ++ res.stderr) ∧
    (buildExecResponse res).error = errorMessage ∧
    (errorMessage = "" →
      (buildExecResponse res).exitCode = exitCode ∧ res.stdout = stdout ∧
      res.stderr = stderr) ∧
    (errorMessage ≠ "" →
      (buildExecResponse res).exitCode = -1 ∧ res.stdout = "" ∧ res.stderr = "") := by
  by_cases hmsg : errorMessage = ""
  · rw [if_pos hmsg] at hres
    have hsub : (submitCommandResult q r stdout stderr exitCode errorMessage).2 =
        (q.complete r { requestID := r, stdout := stdout, stderr := stderr,
                        exitCode := exitCode, errorMessage := errorMessage,
                        completed := false }).1 := by
      unfold submitCommandResult
      rw [if_neg hr, if_neg (not_not_intro hmsg)]
    refine ⟨?_, buildExecResponse_output res, ?_, fun _ => ?_, fun hc => absurd hmsg hc⟩
    · rw [hsub, complete_then_wait q r cmd _ h hch, hres, hmsg]
    · rw [buildExecResponse_error, hres, hmsg]
    · rw [buildExecResponse_exitCode, hres]
      exact ⟨rfl, rfl, rfl⟩
  · rw [if_neg hmsg] at hres
    have hsub : (submitCommandResult q r stdout stderr exitCode errorMessage).2 =
        (q.fail r errorMessage).1 := by
      unfold submitCommandResult
      rw [if_neg hr, if_pos hmsg]
    refine ⟨?_, buildExecResponse_output res, ?_, fun hc => absurd hc hmsg, fun _ => ?_⟩
    · rw [hsub, fail_then_wait q r cmd _ h hch, hres]
    · rw [buildExecResponse_error, hres]
      rfl
    · rw [buildExecResponse_exitCode, hres]
      exact ⟨rfl, rfl, rfl⟩

/-- Witness for C8: a success result with both streams yields
`stdout\nstderr` and exit 0; an error result yields `error` set and
exit `-1`. -/
theorem C8_exec_response_witness :
    ((submitCommandResult c8Q "r8" "A" "B" 0 "").2.waitForResult "r8" false).1 =
      WaitOutcome.result { requestID := "r8", stdout := "A", stderr := "B",
                           exitCode := 0, errorMessage := "", completed := true } ∧
    (buildExecResponse { requestID := "r8", stdout := "A", stderr := "B",
                         exitCode := 0, errorMessage := "", completed := true }) =
      { output := "A\nB", exitCode := 0, error := "" } ∧
    ((submitCommandResult c8Q "r8" "" "" 5 "boom").2.waitForResult "r8" false).1 =
      WaitOutcome.result (failResult "r8" "boom") ∧
    (buildExecResponse (failResult "r8" "boom")) =
      { output := "", exitCode := -1, error := "boom" } := by
  have h1 := C8_exec_response_assembly c8Q "r8" c8Cmd rfl rfl (by decide)
    "A" "B" 0 "" _ rfl
  have h2 := C8_exec_response_assembly c8Q "r8" c8Cmd rfl rfl (by decide)
    "" "" 5 "boom" _ rfl
  exact ⟨h1.1, by rfl, h2.1, by rfl⟩

/-! ### C9: exec timeout clamping -/

/-- Claim C9, counterexample. For the request value `10^10` seconds — more
than 300 — the effective timeout is **not** 300 seconds: the Go expression
`time.Duration(req.Timeout) * time.Second` overflows the signed 64-bit
nanosecond representation (`10^19` wraps to a negative duration), so the
`> MaxExecTimeout` clamp never fires and the effective timeout is a
negative duration, not 300 s. -/
theorem C9_counterexample_int64_overflow :
    (10000000000 : Int) > 300 ∧
    effectiveTimeoutNs 10000000000 = -8446744073709551616 ∧
    effectiveTimeoutNs 10000000000 ≠ 300 * secondNs := by
  refine ⟨by norm_num, ?_, ?_⟩
  · norm_num [effectiveTimeoutNs, wrap64, secondNs, maxExecTimeoutNs]
  · norm_num [effectiveTimeoutNs, wrap64, secondNs, maxExecTimeoutNs]

/-- Claim C9, amended. The effective timeout is the requested number of
seconds for requests in `[1, 300]`, is clamped to 300 s for larger requests
**up to `9223372036` s** (beyond which the nanosecond conversion overflows
int64 and the clamp misfires), and is the 30 s default when the `timeout`
field is missing, zero, or negative. -/
theorem C9_timeout_clamp (t : Int) :
    (1 ≤ t ∧ t ≤ 300 → effectiveTimeoutNs t = t * secondNs) ∧
    (300 < t ∧ t ≤ 9223372036 → effectiveTimeoutNs t = maxExecTimeoutNs) ∧
    (t ≤ 0 → effectiveTimeoutNs t = defaultExecTimeoutNs) := by
  have h63 : (2 : Int) ^ 63 = 9223372036854775808 := by norm_num
  have h64 : (2 : Int) ^ 64 = 18446744073709551616 := by norm_num
  simp only [effectiveTimeoutNs, wrap64, secondNs, maxExecTimeoutNs,
    defaultExecTimeoutNs, h63, h64]
  refine ⟨fun ht => ?_, fun ht => ?_, fun ht => ?_⟩
  · rw [if_pos (show t > 0 by omega), Int.emod_eq_of_lt (by omega) (by omega),
      if_neg (by omega)]
    omega
  · rw [if_pos (show t > 0 by omega), Int.emod_eq_of_lt (by omega) (by omega),
      if_pos (by omega)]
  · rw [if_neg (by omega)]

/-- Witness for the amended C9 at representative request values. -/
theorem C9_timeout_clamp_witness :
    effectiveTimeoutNs 42 = 42 * secondNs ∧
    effectiveTimeoutNs 301 = maxExecTimeoutNs ∧
    effectiveTimeoutNs 0 = defaultExecTimeoutNs ∧
    effectiveTimeoutNs (-7) = defaultExecTimeoutNs :=
  ⟨(C9_timeout_clamp 42).1 (by norm_num),
   (C9_timeout_clamp 301).2.1 (by norm_num),
   (C9_timeout_clamp 0).2.2 (by norm_num),
   (C9_timeout_clamp (-7)).2.2 (by norm_num)⟩

/-! ### C10: disabled account never revealed without the right password -/

/-- Claim C10. `HandleLogin` checks the password **before** the active flag:
for a stored but inactive user, the 403 account-disabled outcome occurs iff
the presented password matches; with a wrong password the outcome is the
same 401 invalid-credentials as for an unknown email. -/
theorem C10_disabled_only_after_password (checkPw : String → String → Bool)
    (users : List User) (email password : String) (user : User)
    (h : getUserByEmail users email = some user) (hinactive : user.isActive = false) :
    (handleLogin checkPw users email password = LoginOutcome.accountDisabled ↔
      checkPw password user.passwordHash = true) ∧
    (checkPw password user.passwordHash = false →
      handleLogin checkPw users email password = LoginOutcome.invalidCredentials) ∧
    (∀ email2, getUserByEmail users email2 = none →
      handleLogin checkPw users email2 password = LoginOutcome.invalidCredentials) := by
  refine ⟨?_, ?_, ?_⟩
  · unfold handleLogin
    rw [h]
    dsimp only
    cases hcp : checkPw password user.passwordHash
    · simp
    · simp [hinactive]
  · intro hcp
    unfold handleLogin
    rw [h]
    dsimp only
    simp [hcp]
  · intro email2 h2
    unfold handleLogin
    rw [h2]

/-- Witness for C10: right password reveals 403; wrong password and unknown
email both yield the 401 invalid-credentials outcome. -/
theorem C10_disabled_only_after_password_witness :
    (handleLogin c10CheckPw c10Users "off@example.com" "secret" =
        LoginOutcome.accountDisabled ↔ c10CheckPw "secret" "secret" = true) ∧
    handleLogin c10CheckPw c10Users "off@example.com" "wrong" =
      LoginOutcome.invalidCredentials ∧
    handleLogin c10CheckPw c10Users "nobody@example.com" "secret" =
      LoginOutcome.invalidCredentials := by
  have h1 := C10_disabled_only_after_password c10CheckPw c10Users
    "off@example.com" "secret" _ rfl rfl
  have h2 := C10_disabled_only_after_password c10CheckPw c10Users
    "off@example.com" "wrong" _ rfl rfl
  exact ⟨h1.1, h2.2.1 rfl, h1.2.2 "nobody@example.com" rfl⟩

end KBridge
